import Mathlib

/-!
Verification of the layer compositing engine of `roygbiv` (src/main.rs).

The engine state (`Roygbiv`), messages (`Message`), the central dispatcher
(`Roygbiv.update`), the layer data model (`Layer`), the canvas state with its
two cache slots (`CanvasState`), and the draw routine are embedded shallowly.

Modelling conventions:
* Rust `f32` fields are modelled as `ℚ`; every concrete value exercised below
  is exactly representable and its arithmetic exact in `f32`, so `ℚ` agrees
  with the source on those inputs.
* `Vec<u8>` byte buffers are `List Nat`; the `image::Handle` stored in a layer
  is modelled as the byte buffer it was created from.
* The external image decoder (`image::load_from_memory`, a library call, not
  code of this repository) is an oracle parameter
  `decode : List Nat → Option (Nat × Nat)` returning the decoded dimensions on
  success and `none` on a decode failure.
* A Rust panic (e.g. `Vec::remove` on an out-of-range index) is modelled by
  `Roygbiv.update` returning `none`; a normal return is `some` of the new
  state together with the message delivered by a returned `Task::done`
  (`none` when the handler returns `Task::none()` or only spawns an external
  asynchronous task).
-/

set_option autoImplicit false

namespace Roygbiv

/-- Error type of src/main.rs (`enum Error`); `io::ErrorKind` is modelled as a
numeric code. -/
inductive Error where
  | DialogClosed : Error
  | IoError (kind : Nat) : Error
deriving DecidableEq, Repr

/-- Layer record of src/main.rs (`struct Layer`); the `handle` field keeps the
bytes passed to `Handle::from_bytes`. -/
structure Layer where
  name : String
  x : ℚ
  y : ℚ
  width : ℚ
  height : ℚ
  scale : ℚ
  opacity : ℚ
  handle : List Nat
deriving DecidableEq, Repr

/-- Rectangle with position and size, mirroring `iced::Rectangle` as used by
`frame.draw_image`. -/
structure Rect where
  x : ℚ
  y : ℚ
  width : ℚ
  height : ℚ
deriving DecidableEq, Repr

/-- Modelled from the spec: `iced::widget::canvas::Cache` is an external
library type (not code of this repository). Per the spec's RenderCache, a slot
stores a rasterized result keyed by the size it was produced at; `clear` empties
it, and a draw request recomputes exactly when the slot is empty or was filled
at a different size, otherwise the stored content is returned unchanged. -/
structure Cache (α : Type) where
  stored : Option ((ℚ × ℚ) × α)
deriving DecidableEq, Repr

/-- `canvas::Cache::clear`: invalidate the slot. -/
def Cache.clear {α : Type} (_ : Cache α) : Cache α :=
  { stored := none }

/-- `canvas::Cache::draw`: return the cached content when valid for `size`,
otherwise run the draw closure and store its result for `size`. The `Bool`
reports whether a recomputation happened. -/
def Cache.draw {α : Type} (c : Cache α) (size : ℚ × ℚ) (redraw : Unit → α) :
    α × Bool × Cache α :=
  match c.stored with
  | some (sz, content) =>
      if sz = size then (content, false, c)
      else
        let a := redraw ()
        (a, true, { stored := some (size, a) })
  | none =>
      let a := redraw ()
      (a, true, { stored := some (size, a) })

/-- Canvas state of src/main.rs (`struct CanvasState`): the layer store plus
the two cache slots. The background slot caches a flat fill (content carries no
information, modelled as `Unit`); the layers slot caches the list of destination
rectangles drawn by `frame.draw_image`. -/
structure CanvasState where
  layers : List Layer
  background_cache : Cache Unit
  layers_cache : Cache (List Rect)
deriving DecidableEq, Repr

/-- `CanvasState::new`. -/
def CanvasState.new : CanvasState :=
  { layers := []
    background_cache := { stored := none }
    layers_cache := { stored := none } }

/-- `CanvasState::update`: clears only the layers cache slot. -/
def CanvasState.update (c : CanvasState) : CanvasState :=
  { c with layers_cache := c.layers_cache.clear }

/-- The per-layer body of the draw loop in `CanvasState::draw`
(src/main.rs lines 467-495): fit-to-bounds width reduction with a fixed margin
of 20, aspect-ratio-preserving height, destination rectangle at the layer's
position. -/
def drawLayerRect (boundsWidth : ℚ) (layer : Layer) : Rect :=
  let layer_width := layer.width
  let layer_height := layer.height
  let final_width := if layer_width > boundsWidth then boundsWidth - 20 else layer_width
  let final_height :=
    if final_width ≠ layer_width then final_width / (layer_width / layer_height)
    else layer_height
  { x := layer.x, y := layer.y, width := final_width, height := final_height }

/-- `CanvasState::draw`: fill the background through the background cache slot,
then draw every layer in store order through the layers cache slot. Returns the
layer rectangles handed back by the layers slot together with the two
recomputation flags `(backgroundRedrawn, layersRedrawn)` and the canvas state
with its caches updated (the caches have interior mutability in the source). -/
def CanvasState.draw (c : CanvasState) (bounds : Rect) :
    (List Rect × Bool × Bool) × CanvasState :=
  let bounds_size : ℚ × ℚ := (bounds.width, bounds.height)
  let bg := c.background_cache.draw bounds_size fun _ => ()
  let ly := c.layers_cache.draw bounds_size fun _ =>
    c.layers.map (drawLayerRect bounds_size.1)
  ((ly.1, bg.2.1, ly.2.1),
   { c with background_cache := bg.2.2, layers_cache := ly.2.2 })

instance {ε α : Type} [DecidableEq ε] [DecidableEq α] :
    DecidableEq (Except ε α) := fun a b =>
  match a, b with
  | .ok x, .ok y =>
      if h : x = y then .isTrue (by rw [h]) else .isFalse (by simp [h])
  | .error x, .error y =>
      if h : x = y then .isTrue (by rw [h]) else .isFalse (by simp [h])
  | .ok _, .error _ => .isFalse (by simp)
  | .error _, .ok _ => .isFalse (by simp)

/-- Messages of src/main.rs (`enum Message`). `AudioFileOpened` and
`ImageFileOpened` carry the completed file-load result: the picked path
(modelled as a string) and the raw bytes. -/
inductive Message where
  | SetCanvasSize (width height : ℚ) : Message
  | OpenAudioFile : Message
  | RemoveAudioFile : Message
  | AudioFileOpened (result : Except Error (String × List Nat)) : Message
  | AddImageLayer : Message
  | RemoveLayer (index : Nat) : Message
  | ImageFileOpened (result : Except Error (String × List Nat)) : Message
  | LayerSelected (index : Nat) (selected : String) : Message
  | SelectLastLayer : Message
  | Tick : Message
deriving DecidableEq, Repr

/-- Application state of src/main.rs (`struct Roygbiv`). -/
structure State where
  canvas_state : CanvasState
  canvas_width : ℚ
  canvas_height : ℚ
  audio_file_path : Option String
  audio_file_contents : List Nat
  is_loading_file : Bool
  layer_names : List String
  selected_layer_index : Nat
deriving DecidableEq, Repr

/-- The initial state built in `main`'s `run_with` closure. -/
def initialState : State :=
  { canvas_state := CanvasState.new
    canvas_width := 1280
    canvas_height := 720
    audio_file_path := none
    audio_file_contents := []
    is_loading_file := false
    layer_names := []
    selected_layer_index := 0 }

/-- `PathBuf::file_name().to_str()` as used on the picked path: the last
nonempty `/`-separated component; the handler falls back to `"Unnamed"` when
none is available (`unwrap_or("Unnamed")`). -/
def fileNameOf (path : String) : String :=
  let tail := path.data.foldl (fun acc c => if c = '/' then [] else acc ++ [c]) []
  if tail.isEmpty then "Unnamed" else String.mk tail

/-- The `Layer` value built in the `Message::ImageFileOpened` handler
(src/main.rs lines 163-192): name from the file name, position `(0, 0)`,
size from the decoded image dimensions or the canvas-minus-margin fallback,
`scale = 1`, `opacity = 1`. -/
def ingestLayer (decode : List Nat → Option (Nat × Nat))
    (canvas_width canvas_height : ℚ) (path : String) (contents : List Nat) :
    Layer :=
  let file_name := fileNameOf path
  let image_size : ℚ × ℚ :=
    match decode contents with
    | some dims => ((dims.1 : ℚ), (dims.2 : ℚ))
    | none => (canvas_width - 20, canvas_height - 20)
  { name := file_name
    x := 0
    y := 0
    width := image_size.1
    height := image_size.2
    scale := 1
    opacity := 1
    handle := contents }

/-- `Roygbiv::update_layer_names`: eagerly recompute the name projection from
the layer store. -/
def update_layer_names (s : State) : State :=
  { s with layer_names := s.canvas_state.layers.map Layer.name }

/-- `Roygbiv::update` (src/main.rs lines 119-215). Returns `none` when the
handler panics (out-of-range `Vec::remove`), otherwise the new state and the
message delivered by a returned `Task::done`. -/
def update (decode : List Nat → Option (Nat × Nat)) (s : State)
    (m : Message) : Option (State × Option Message) :=
  match m with
  | .SetCanvasSize width height =>
      some ({ s with canvas_width := width, canvas_height := height }, none)
  | .OpenAudioFile =>
      if s.is_loading_file then some (s, none)
      else some ({ s with is_loading_file := true }, none)
  | .RemoveAudioFile =>
      some ({ s with is_loading_file := false,
                     audio_file_path := none,
                     audio_file_contents := [] }, none)
  | .AudioFileOpened result =>
      match result with
      | .ok pc =>
          some ({ s with is_loading_file := false,
                         audio_file_path := some pc.1,
                         audio_file_contents := pc.2 }, none)
      | .error _ =>
          some ({ s with is_loading_file := false }, none)
  | .AddImageLayer => some (s, none)
  | .RemoveLayer index =>
      if index < s.canvas_state.layers.length then
        let layers' := s.canvas_state.layers.eraseIdx index
        let s' := { s with canvas_state := { s.canvas_state with layers := layers' } }
        some (update_layer_names s', some .SelectLastLayer)
      else none
  | .ImageFileOpened result =>
      match result with
      | .ok pc =>
          let layer := ingestLayer decode s.canvas_width s.canvas_height pc.1 pc.2
          let s' := { s with canvas_state :=
            { s.canvas_state with layers := s.canvas_state.layers ++ [layer] } }
          some (update_layer_names s', some .SelectLastLayer)
      | .error _ => some (s, some .SelectLastLayer)
  | .LayerSelected index _ =>
      some ({ s with selected_layer_index := index }, none)
  | .SelectLastLayer =>
      some ({ s with selected_layer_index := max s.canvas_state.layers.length 1 - 1 }, none)
  | .Tick =>
      some ({ s with canvas_state := s.canvas_state.update }, none)

/-- Deliver one message and then the follow-up message its handler scheduled
through `Task::done`, if any (no handler schedules a second level). `none`
propagates a panic. -/
def step (decode : List Nat → Option (Nat × Nat)) (s : State)
    (m : Message) : Option State :=
  match update decode s m with
  | none => none
  | some (s', none) => some s'
  | some (s', some m') =>
      match update decode s' m' with
      | none => none
      | some (s'', _) => some s''

/-- Deliver a list of messages serially, each with its follow-up. -/
def stepMany (decode : List Nat → Option (Nat × Nat)) (s : State) :
    List Message → Option State
  | [] => some s
  | m :: ms =>
      match step decode s m with
      | none => none
      | some s' => stepMany decode s' ms

/-- One frame pull by the host: run `CanvasState::draw` against the current
state at the given bounds (the canvas widget calls `draw` with the layout
bounds each frame). Returns the drawn layer rectangles, the two recomputation
flags, and the state with the interior-mutable caches updated. -/
def renderAt (s : State) (bounds : Rect) : (List Rect × Bool × Bool) × State :=
  let r := s.canvas_state.draw bounds
  (r.1, { s with canvas_state := r.2 })

/-- A decode oracle that always fails (undecodable bytes). -/
def decodeNone : List Nat → Option (Nat × Nat) := fun _ => none

/-- A decode oracle that decodes every buffer to a 100 × 50 image. -/
def decodeSmall : List Nat → Option (Nat × Nat) := fun _ => some (100, 50)

/-- A sample layer used as concrete input in several witnesses. -/
def sampleLayer : Layer :=
  { name := "A", x := 0, y := 0, width := 100, height := 50, scale := 1,
    opacity := 1, handle := [1] }

/-- A second sample layer. -/
def sampleLayerB : Layer :=
  { name := "B", x := 0, y := 0, width := 2000, height := 1000, scale := 1,
    opacity := 1, handle := [2] }

/-- The initial state with a given layer list installed (the shape a state has
after some successful appends). -/
def withLayers (ls : List Layer) : State :=
  { initialState with
      canvas_state := { CanvasState.new with layers := ls },
      layer_names := ls.map Layer.name }

lemma step_removeLayer (decode : List Nat → Option (Nat × Nat)) (s : State)
    (i : Nat) (h : i < s.canvas_state.layers.length) :
    step decode s (.RemoveLayer i) = some
      { s with
          canvas_state :=
            { s.canvas_state with layers := s.canvas_state.layers.eraseIdx i },
          layer_names := (s.canvas_state.layers.eraseIdx i).map Layer.name,
          selected_layer_index :=
            max (s.canvas_state.layers.eraseIdx i).length 1 - 1 } := by
  simp [step, update, update_layer_names, h]

lemma step_imageOk (decode : List Nat → Option (Nat × Nat)) (s : State)
    (path : String) (contents : List Nat) :
    step decode s (.ImageFileOpened (.ok (path, contents))) = some
      { s with
          canvas_state :=
            { s.canvas_state with layers := s.canvas_state.layers ++
              [ingestLayer decode s.canvas_width s.canvas_height path contents] },
          layer_names := (s.canvas_state.layers ++
            [ingestLayer decode s.canvas_width s.canvas_height path contents]).map
              Layer.name,
          selected_layer_index := s.canvas_state.layers.length } := by
  have hmax : max (s.canvas_state.layers.length + 1) 1 - 1 =
      s.canvas_state.layers.length := by omega
  simp [step, update, update_layer_names, hmax]

lemma step_imageErr (decode : List Nat → Option (Nat × Nat)) (s : State)
    (e : Error) :
    step decode s (.ImageFileOpened (.error e)) = some
      { s with
          selected_layer_index := max s.canvas_state.layers.length 1 - 1 } := by
  simp [step, update]

/-! ## Claim C1: remove-layer semantics -/

/-- Claim C1 counterexample: the remove-layer operation at the out-of-range
index 0 on the empty initial store does not fail recoverably with the store
unmodified — the handler calls `Vec::remove`, which panics (modelled by
`update` returning `none`), fatally terminating the engine. -/
theorem c1_counterexample :
    initialState.canvas_state.layers.length ≤ 0 ∧
    update decodeNone initialState (.RemoveLayer 0) = none := by
  constructor
  · decide
  · rfl

/-- Claim C1 (amended): the remove-layer operation with `i ≥ len(layers)`
panics (fatally terminates the engine, modelled by `none`) instead of failing
with a recoverable `IndexOutOfRange`; with `i < len(layers)` it removes the
layer at `i` and shifts subsequent indices down by one. -/
theorem c1_remove_layer (decode : List Nat → Option (Nat × Nat)) (s : State)
    (i : Nat) :
    (s.canvas_state.layers.length ≤ i →
      update decode s (.RemoveLayer i) = none) ∧
    (i < s.canvas_state.layers.length →
      ∃ s', step decode s (.RemoveLayer i) = some s' ∧
        s'.canvas_state.layers =
          s.canvas_state.layers.take i ++ s.canvas_state.layers.drop (i + 1)) := by
  constructor
  · intro h
    simp [update, Nat.not_lt.mpr h]
  · intro h
    refine ⟨_, step_removeLayer decode s i h, ?_⟩
    simp [List.eraseIdx_eq_take_drop_succ]

/-- Claim C1 witness: on a one-layer store, removing at index 5 panics, and
removing at index 0 yields the empty store. -/
theorem c1_remove_layer_witness :
    ((withLayers [sampleLayer]).canvas_state.layers.length ≤ 5 ∧
      update decodeSmall (withLayers [sampleLayer]) (.RemoveLayer 5) = none) ∧
    (0 < (withLayers [sampleLayer]).canvas_state.layers.length ∧
      ∃ s', step decodeSmall (withLayers [sampleLayer]) (.RemoveLayer 0) = some s' ∧
        s'.canvas_state.layers =
          (withLayers [sampleLayer]).canvas_state.layers.take 0 ++
            (withLayers [sampleLayer]).canvas_state.layers.drop 1) :=
  ⟨⟨by decide,
    (c1_remove_layer decodeSmall (withLayers [sampleLayer]) 5).1 (by decide)⟩,
   ⟨by decide,
    (c1_remove_layer decodeSmall (withLayers [sampleLayer]) 0).2 (by decide)⟩⟩

/-! ## Claims C3 and C4: selection model -/

/-- The selection invariant claimed by the spec: an empty store pins the
selected index to the sentinel 0, a non-empty store keeps it in range. -/
def selectionInvariant (s : State) : Prop :=
  if s.canvas_state.layers.length = 0 then s.selected_layer_index = 0
  else s.selected_layer_index =
    min s.selected_layer_index (s.canvas_state.layers.length - 1)

instance (s : State) : Decidable (selectionInvariant s) := by
  unfold selectionInvariant
  infer_instance

/-- Claim C3 counterexample: the select command is not invariant-preserving.
On a one-layer store satisfying the invariant, `LayerSelected 5` sets the
selected index unconditionally to 5, which is out of range. -/
theorem c3_counterexample :
    selectionInvariant (withLayers [sampleLayer]) ∧
    step decodeSmall (withLayers [sampleLayer]) (.LayerSelected 5 "A") =
      some { withLayers [sampleLayer] with selected_layer_index := 5 } ∧
    ¬ selectionInvariant
      { withLayers [sampleLayer] with selected_layer_index := 5 } := by
  refine ⟨by decide, rfl, by decide⟩

/-- Claim C3 (amended): after an append or a remove (each including the
select-last follow-up they schedule) and after a select-last command, the
selection invariant holds: `selectedIndex == 0` when the store is empty,
otherwise `selectedIndex == min(selectedIndex, len-1)`. The select command is
excluded: it sets the index unconditionally and can leave it out of range. -/
theorem c3_selection_invariant (decode : List Nat → Option (Nat × Nat))
    (s : State) (i : Nat) (path : String) (contents : List Nat) :
    (i < s.canvas_state.layers.length →
      ∀ s', step decode s (.RemoveLayer i) = some s' → selectionInvariant s') ∧
    (∀ s', step decode s (.ImageFileOpened (.ok (path, contents))) = some s' →
      selectionInvariant s') ∧
    (∀ s', step decode s .SelectLastLayer = some s' → selectionInvariant s') := by
  refine ⟨fun h s' hs' => ?_, fun s' hs' => ?_, fun s' hs' => ?_⟩
  · rw [step_removeLayer decode s i h] at hs'
    cases hs'
    unfold selectionInvariant
    dsimp only
    split <;> omega
  · rw [step_imageOk decode s path contents] at hs'
    cases hs'
    unfold selectionInvariant
    dsimp only
    simp
  · have : step decode s .SelectLastLayer = some
        { s with selected_layer_index := max s.canvas_state.layers.length 1 - 1 } := rfl
    rw [this] at hs'
    cases hs'
    unfold selectionInvariant
    dsimp only
    split <;> omega

/-- Claim C3 witness: on a two-layer store, removing index 0, appending, and
select-last each re-establish the invariant. -/
theorem c3_selection_invariant_witness :
    (0 < (withLayers [sampleLayer, sampleLayerB]).canvas_state.layers.length ∧
      ∀ s', step decodeSmall (withLayers [sampleLayer, sampleLayerB])
        (.RemoveLayer 0) = some s' → selectionInvariant s') ∧
    (∀ s', step decodeSmall (withLayers [sampleLayer, sampleLayerB])
      (.ImageFileOpened (.ok ("C", [3]))) = some s' → selectionInvariant s') ∧
    (∀ s', step decodeSmall (withLayers [sampleLayer, sampleLayerB])
      .SelectLastLayer = some s' → selectionInvariant s') :=
  ⟨⟨by decide,
    (c3_selection_invariant decodeSmall (withLayers [sampleLayer, sampleLayerB])
      0 "C" [3]).1 (by decide)⟩,
   (c3_selection_invariant decodeSmall (withLayers [sampleLayer, sampleLayerB])
      0 "C" [3]).2.1,
   (c3_selection_invariant decodeSmall (withLayers [sampleLayer, sampleLayerB])
      0 "C" [3]).2.2⟩

/-- Claim C4: the select-last handler sets
`selectedIndex = max(len(layers) - 1, 0)`; it is scheduled after every remove
and after every completed append; after an append the selected index equals
`len - 1` on a store of length ≥ 1; after removing from a store of length ≥ 2
(so it stays non-empty) the selected index equals the new `len - 1`. -/
theorem c4_select_last (decode : List Nat → Option (Nat × Nat)) (s : State)
    (i : Nat) (path : String) (contents : List Nat) :
    (∃ s', update decode s .SelectLastLayer = some (s', none) ∧
      (s'.selected_layer_index : ℤ) =
        max ((s.canvas_state.layers.length : ℤ) - 1) 0) ∧
    (i < s.canvas_state.layers.length →
      ∃ s', update decode s (.RemoveLayer i) = some (s', some .SelectLastLayer)) ∧
    (∃ s', update decode s (.ImageFileOpened (.ok (path, contents))) =
      some (s', some .SelectLastLayer)) ∧
    (∃ s', step decode s (.ImageFileOpened (.ok (path, contents))) = some s' ∧
      1 ≤ s'.canvas_state.layers.length ∧
      s'.selected_layer_index = s'.canvas_state.layers.length - 1) ∧
    (i < s.canvas_state.layers.length → 2 ≤ s.canvas_state.layers.length →
      ∃ s', step decode s (.RemoveLayer i) = some s' ∧
        1 ≤ s'.canvas_state.layers.length ∧
        s'.selected_layer_index = s'.canvas_state.layers.length - 1) := by
  have hrem : ∀ (_ : i < s.canvas_state.layers.length),
      update decode s (.RemoveLayer i) = some
        (update_layer_names { s with canvas_state :=
          { s.canvas_state with layers := s.canvas_state.layers.eraseIdx i } },
         some .SelectLastLayer) := by
    intro h
    simp only [update]
    rw [if_pos h]
  refine ⟨⟨_, rfl, ?_⟩, fun h => ⟨_, hrem h⟩, ⟨_, rfl⟩,
    ⟨_, step_imageOk decode s path contents, ?_, ?_⟩,
    fun h h2 => ⟨_, step_removeLayer decode s i h, ?_, ?_⟩⟩
  · dsimp only
    omega
  · dsimp only
    simp
  · dsimp only
    simp
  · dsimp only
    simp [List.length_eraseIdx, h]
    omega
  · dsimp only
    simp [List.length_eraseIdx, h]
    omega

/-- Claim C4 witness: on a two-layer store with index 0, all five conjuncts
hold at a concrete input. -/
theorem c4_select_last_witness :
    (∃ s', update decodeSmall (withLayers [sampleLayer, sampleLayerB])
        .SelectLastLayer = some (s', none) ∧
      (s'.selected_layer_index : ℤ) =
        max (((withLayers [sampleLayer, sampleLayerB]).canvas_state.layers.length : ℤ) - 1) 0) ∧
    (∃ s', update decodeSmall (withLayers [sampleLayer, sampleLayerB])
      (.RemoveLayer 0) = some (s', some .SelectLastLayer)) ∧
    (∃ s', step decodeSmall (withLayers [sampleLayer, sampleLayerB])
      (.RemoveLayer 0) = some s' ∧
      1 ≤ s'.canvas_state.layers.length ∧
      s'.selected_layer_index = s'.canvas_state.layers.length - 1) :=
  ⟨(c4_select_last decodeSmall (withLayers [sampleLayer, sampleLayerB])
      0 "C" [3]).1,
   (c4_select_last decodeSmall (withLayers [sampleLayer, sampleLayerB])
      0 "C" [3]).2.1 (by decide),
   (c4_select_last decodeSmall (withLayers [sampleLayer, sampleLayerB])
      0 "C" [3]).2.2.2.2 (by decide) (by decide)⟩

/-! ## Claims C9 and C10: name projection and layer construction -/

/-- Claim C9: after a remove and after a completed append the name projection
equals the ordered display names of the store; an append extends the
projection with the new layer's name at the end (so N appends list the N
names in append order); and the scenario append A, append B, remove 0 ends
with projection `["B"]` and selected index 0. -/
theorem c9_names_projection (decode : List Nat → Option (Nat × Nat))
    (s : State) (i : Nat) (path : String) (contents : List Nat) :
    (i < s.canvas_state.layers.length →
      ∃ s', step decode s (.RemoveLayer i) = some s' ∧
        s'.layer_names = s'.canvas_state.layers.map Layer.name) ∧
    (∃ s', step decode s (.ImageFileOpened (.ok (path, contents))) = some s' ∧
      s'.layer_names = s'.canvas_state.layers.map Layer.name ∧
      s'.layer_names = s.canvas_state.layers.map Layer.name ++
        [(ingestLayer decode s.canvas_width s.canvas_height path contents).name]) ∧
    ((stepMany decodeSmall initialState
        [.ImageFileOpened (.ok ("A", [1])), .ImageFileOpened (.ok ("B", [2])),
         .RemoveLayer 0]).map
      (fun st => (st.layer_names, st.selected_layer_index)) = some (["B"], 0)) := by
  refine ⟨fun h => ⟨_, step_removeLayer decode s i h, ?_⟩,
    ⟨_, step_imageOk decode s path contents, ?_, ?_⟩, ?_⟩
  · dsimp only
  · dsimp only
  · dsimp only
    simp
  · simp [stepMany, step, update, update_layer_names, ingestLayer, decodeSmall,
      initialState, CanvasState.new, fileNameOf]

/-- Claim C9 witness: the projection equalities at a concrete two-layer store
with a remove at index 0. -/
theorem c9_names_projection_witness :
    0 < (withLayers [sampleLayer, sampleLayerB]).canvas_state.layers.length ∧
    ∃ s', step decodeSmall (withLayers [sampleLayer, sampleLayerB])
        (.RemoveLayer 0) = some s' ∧
      s'.layer_names = s'.canvas_state.layers.map Layer.name :=
  ⟨by decide,
   (c9_names_projection decodeSmall (withLayers [sampleLayer, sampleLayerB])
      0 "C" [3]).1 (by decide)⟩

/-- Claim C10: every layer built on image ingestion starts at position
`x = 0, y = 0` with `scale = 1` and `opacity = 1`, on the successful-decode
path and on the decode-failure path alike (the fields do not depend on the
decode result), and a completed append pushes exactly this layer. -/
theorem c10_layer_construction (decode : List Nat → Option (Nat × Nat))
    (s : State) (path : String) (contents : List Nat) :
    (ingestLayer decode s.canvas_width s.canvas_height path contents).x = 0 ∧
    (ingestLayer decode s.canvas_width s.canvas_height path contents).y = 0 ∧
    (ingestLayer decode s.canvas_width s.canvas_height path contents).scale = 1 ∧
    (ingestLayer decode s.canvas_width s.canvas_height path contents).opacity = 1 ∧
    (∃ s', step decode s (.ImageFileOpened (.ok (path, contents))) = some s' ∧
      s'.canvas_state.layers = s.canvas_state.layers ++
        [ingestLayer decode s.canvas_width s.canvas_height path contents]) :=
  ⟨rfl, rfl, rfl, rfl, ⟨_, step_imageOk decode s path contents, rfl⟩⟩

/-! ## Claims C6, C7 and C8: construction invariant and error paths -/

/-- Claim C6 counterexample: the width/height positivity invariant does not
hold for every canvas size the host may set. After `SetCanvasSize 10 10`, an
undecodable buffer constructs a layer of width `10 - 20 < 0`. -/
theorem c6_counterexample :
    update decodeNone initialState (.SetCanvasSize 10 10) =
      some ({ initialState with canvas_width := 10, canvas_height := 10 }, none) ∧
    (∃ s', step decodeNone
        { initialState with canvas_width := 10, canvas_height := 10 }
        (.ImageFileOpened (.ok ("bad", []))) = some s' ∧
      s'.canvas_state.layers.map Layer.width = [(10 : ℚ) - 20]) ∧
    (10 : ℚ) - 20 < 0 := by
  refine ⟨rfl, ⟨_, step_imageOk decodeNone _ "bad" [], ?_⟩, by norm_num⟩
  dsimp only
  simp [ingestLayer, decodeNone, initialState, CanvasState.new]

/-- Claim C6 (amended): a constructed layer has `width > 0 ∧ height > 0`
provided the canvas dimensions exceed the 20-unit margin (true of the initial
1280 × 720 canvas; nothing in the program itself ever sends `SetCanvasSize`)
and, on the successful-decode path, provided the decoder reports nonzero
dimensions; for a canvas of width or height ≤ 20 the fallback path violates
the invariant. -/
theorem c6_layer_positive (decode : List Nat → Option (Nat × Nat))
    (s : State) (path : String) (contents : List Nat)
    (hw : 20 < s.canvas_width) (hh : 20 < s.canvas_height) :
    (decode contents = none →
      0 < (ingestLayer decode s.canvas_width s.canvas_height path contents).width ∧
      0 < (ingestLayer decode s.canvas_width s.canvas_height path contents).height) ∧
    (∀ w h : Nat, decode contents = some (w, h) → 0 < w → 0 < h →
      0 < (ingestLayer decode s.canvas_width s.canvas_height path contents).width ∧
      0 < (ingestLayer decode s.canvas_width s.canvas_height path contents).height) := by
  constructor
  · intro hd
    simp only [ingestLayer, hd]
    constructor <;> [linarith; linarith]
  · intro w h hd hw0 hh0
    simp only [ingestLayer, hd]
    constructor
    · exact_mod_cast hw0
    · exact_mod_cast hh0

/-- Claim C6 witness: on the initial 1280 × 720 canvas both construction paths
give positive dimensions. -/
theorem c6_layer_positive_witness :
    (20 < initialState.canvas_width ∧ 20 < initialState.canvas_height) ∧
    (decodeNone [] = none ∧
      0 < (ingestLayer decodeNone initialState.canvas_width
        initialState.canvas_height "bad" []).width ∧
      0 < (ingestLayer decodeNone initialState.canvas_width
        initialState.canvas_height "bad" []).height) ∧
    (decodeSmall [] = some (100, 50) ∧
      0 < (ingestLayer decodeSmall initialState.canvas_width
        initialState.canvas_height "ok" []).width ∧
      0 < (ingestLayer decodeSmall initialState.canvas_width
        initialState.canvas_height "ok" []).height) :=
  ⟨⟨by decide, by decide⟩,
   ⟨rfl, (c6_layer_positive decodeNone initialState "bad" []
      (by decide) (by decide)).1 rfl⟩,
   ⟨rfl, (c6_layer_positive decodeSmall initialState "ok" []
      (by decide) (by decide)).2 100 50 rfl (by decide) (by decide)⟩⟩

/-- Claim C7 counterexample: a dismissed image dialog is not observed as "no
command issued". Build two layers, select index 0; delivering
`ImageFileOpened(Err(DialogClosed))` still schedules `SelectLastLayer`, which
moves the selected index from 0 to 1. -/
theorem c7_counterexample :
    ((stepMany decodeSmall initialState
        [.ImageFileOpened (.ok ("A", [1])), .ImageFileOpened (.ok ("B", [2])),
         .LayerSelected 0 "A"]).map
      (fun st => (st.selected_layer_index, st.canvas_state.layers.length)) =
        some (0, 2)) ∧
    ((stepMany decodeSmall initialState
        [.ImageFileOpened (.ok ("A", [1])), .ImageFileOpened (.ok ("B", [2])),
         .LayerSelected 0 "A", .ImageFileOpened (.error .DialogClosed)]).map
      (fun st => (st.selected_layer_index, st.canvas_state.layers.length)) =
        some (1, 2)) := by
  constructor <;>
    simp [stepMany, step, update, update_layer_names, ingestLayer, decodeSmall,
      initialState, CanvasState.new, fileNameOf]

/-- Claim C7 (amended): when the image-file load completes with an error, no
layer is appended, the name projection and every other field are unchanged,
but the handler still returns `Task::done(SelectLastLayer)`, so the selected
index is reset to `max(len - 1, 0)` rather than left unchanged. -/
theorem c7_error_path (decode : List Nat → Option (Nat × Nat)) (s : State)
    (e : Error) :
    ∃ s', step decode s (.ImageFileOpened (.error e)) = some s' ∧
      s'.canvas_state = s.canvas_state ∧
      s'.layer_names = s.layer_names ∧
      s'.canvas_width = s.canvas_width ∧
      s'.canvas_height = s.canvas_height ∧
      s'.audio_file_path = s.audio_file_path ∧
      s'.audio_file_contents = s.audio_file_contents ∧
      s'.is_loading_file = s.is_loading_file ∧
      s'.selected_layer_index = max s.canvas_state.layers.length 1 - 1 :=
  ⟨_, step_imageErr decode s e, rfl, rfl, rfl, rfl, rfl, rfl, rfl, rfl⟩

/-- Claim C8: a buffer that fails to decode still yields a complete layer,
appended in one piece, with the fallback size
`(canvasWidth - 20, canvasHeight - 20)`; on the initial 1280 × 720 canvas the
layer measures 1260 × 700. -/
theorem c8_fallback_layer (decode : List Nat → Option (Nat × Nat))
    (s : State) (path : String) (contents : List Nat)
    (h : decode contents = none) :
    (∃ s', step decode s (.ImageFileOpened (.ok (path, contents))) = some s' ∧
      s'.canvas_state.layers = s.canvas_state.layers ++
        [{ name := fileNameOf path, x := 0, y := 0,
           width := s.canvas_width - 20, height := s.canvas_height - 20,
           scale := 1, opacity := 1, handle := contents }]) ∧
    (s.canvas_width = 1280 → s.canvas_height = 720 →
      (ingestLayer decode s.canvas_width s.canvas_height path contents).width = 1260 ∧
      (ingestLayer decode s.canvas_width s.canvas_height path contents).height = 700) := by
  constructor
  · refine ⟨_, step_imageOk decode s path contents, ?_⟩
    dsimp only
    simp [ingestLayer, h]
  · intro hw hh
    simp only [ingestLayer, h, hw, hh]
    norm_num

/-- Claim C8 witness: undecodable bytes on the initial canvas produce the
1260 × 700 fallback layer. -/
theorem c8_fallback_layer_witness :
    decodeNone [] = none ∧
    (ingestLayer decodeNone initialState.canvas_width
      initialState.canvas_height "bad" []).width = 1260 ∧
    (ingestLayer decodeNone initialState.canvas_width
      initialState.canvas_height "bad" []).height = 700 :=
  ⟨rfl, (c8_fallback_layer decodeNone initialState "bad" [] rfl).2 rfl rfl⟩

/-! ## Claims C2 and C5: render cache and draw scaling -/

/-- A concrete output bounds used in the cache counterexample. -/
def c2Bounds : Rect := { x := 0, y := 0, width := 800, height := 600 }

/-- Claim C2 counterexample: an append does not invalidate the layers cache
slot. Append one layer, render at 800 × 600 (recomputes), append a second
layer, render at the same bounds again: the slot is untouched by the append,
the second query does not recompute and returns the stale one-rectangle
surface although the store now holds two layers. -/
theorem c2_counterexample :
    ∃ s1 s2,
      step decodeSmall initialState (.ImageFileOpened (.ok ("A", [1]))) = some s1 ∧
      (renderAt s1 c2Bounds).1.2.2 = true ∧
      step decodeSmall (renderAt s1 c2Bounds).2
        (.ImageFileOpened (.ok ("B", [2]))) = some s2 ∧
      s2.canvas_state.layers_cache =
        (renderAt s1 c2Bounds).2.canvas_state.layers_cache ∧
      s2.canvas_state.layers.length = 2 ∧
      (renderAt s2 c2Bounds).1.2.2 = false ∧
      (renderAt s2 c2Bounds).1.1 = (renderAt s1 c2Bounds).1.1 ∧
      (renderAt s2 c2Bounds).1.1.length = 1 :=
  ⟨_, _, rfl, rfl, rfl, rfl, rfl, rfl, rfl, rfl⟩

/-- Claim C2 (amended): neither an append nor a remove touches either cache
slot — the layers slot is invalidated only by the `Tick` message (the
per-frame refresh), which clears it unconditionally; a query on a cleared
slot recomputes the composited surface from the current store. A layers-slot
query immediately after an append or a remove, before the next tick, reuses
the stale cached surface. -/
theorem c2_cache_invalidation (decode : List Nat → Option (Nat × Nat))
    (s : State) (i : Nat) (path : String) (contents : List Nat)
    (c : CanvasState) (b : Rect) :
    (i < s.canvas_state.layers.length →
      ∃ s', step decode s (.RemoveLayer i) = some s' ∧
        s'.canvas_state.layers_cache = s.canvas_state.layers_cache ∧
        s'.canvas_state.background_cache = s.canvas_state.background_cache) ∧
    (∃ s', step decode s (.ImageFileOpened (.ok (path, contents))) = some s' ∧
      s'.canvas_state.layers_cache = s.canvas_state.layers_cache ∧
      s'.canvas_state.background_cache = s.canvas_state.background_cache) ∧
    (∃ s', step decode s .Tick = some s' ∧
      s'.canvas_state.layers_cache.stored = none ∧
      s'.canvas_state.layers = s.canvas_state.layers ∧
      s'.canvas_state.background_cache = s.canvas_state.background_cache) ∧
    (c.layers_cache.stored = none →
      (c.draw b).1.2.2 = true ∧
      (c.draw b).1.1 = c.layers.map (drawLayerRect b.width)) := by
  refine ⟨fun h => ⟨_, step_removeLayer decode s i h, rfl, rfl⟩,
    ⟨_, step_imageOk decode s path contents, rfl, rfl⟩,
    ⟨_, rfl, rfl, rfl, rfl⟩, fun h => ?_⟩
  simp [CanvasState.draw, Cache.draw, h]

/-- Claim C2 witness: the cache-untouched and forced-recomputation facts at a
one-layer store, an empty cache, and the 800 × 600 bounds. -/
theorem c2_cache_invalidation_witness :
    (0 < (withLayers [sampleLayer]).canvas_state.layers.length ∧
      ∃ s', step decodeSmall (withLayers [sampleLayer]) (.RemoveLayer 0) = some s' ∧
        s'.canvas_state.layers_cache =
          (withLayers [sampleLayer]).canvas_state.layers_cache ∧
        s'.canvas_state.background_cache =
          (withLayers [sampleLayer]).canvas_state.background_cache) ∧
    (CanvasState.new.layers_cache.stored = none ∧
      (CanvasState.new.draw c2Bounds).1.2.2 = true ∧
      (CanvasState.new.draw c2Bounds).1.1 =
        CanvasState.new.layers.map (drawLayerRect c2Bounds.width)) :=
  ⟨⟨by decide,
    (c2_cache_invalidation decodeSmall (withLayers [sampleLayer]) 0 "C" [3]
      CanvasState.new c2Bounds).1 (by decide)⟩,
   ⟨rfl,
    (c2_cache_invalidation decodeSmall (withLayers [sampleLayer]) 0 "C" [3]
      CanvasState.new c2Bounds).2.2.2 rfl⟩⟩

/-- Claim C5: the draw computes `drawWidth = boundsWidth - 20` exactly when
`layer.width > boundsWidth` and `drawWidth = layer.width` otherwise, and
`drawHeight = drawWidth / (layer.width / layer.height)` exactly in the
reduced case, else `drawHeight = layer.height`; a 2000 × 1000 layer in bounds
of width 800 draws at 780 × 390, a 100 × 50 layer draws unscaled, and a draw
never mutates the stored layers. -/
theorem c5_draw_scaling :
    (∀ (bw : ℚ) (layer : Layer),
      drawLayerRect bw layer =
        { x := layer.x, y := layer.y,
          width := if layer.width > bw then bw - 20 else layer.width,
          height := if layer.width > bw then
              (bw - 20) / (layer.width / layer.height)
            else layer.height }) ∧
    (∀ (c : CanvasState) (b : Rect), ((c.draw b).2).layers = c.layers) ∧
    drawLayerRect 800 sampleLayerB = { x := 0, y := 0, width := 780, height := 390 } ∧
    drawLayerRect 800 sampleLayer = { x := 0, y := 0, width := 100, height := 50 } := by
  have hmain : ∀ (bw : ℚ) (layer : Layer),
      drawLayerRect bw layer =
        { x := layer.x, y := layer.y,
          width := if layer.width > bw then bw - 20 else layer.width,
          height := if layer.width > bw then
              (bw - 20) / (layer.width / layer.height)
            else layer.height } := by
    intro bw layer
    by_cases hgt : layer.width > bw
    · have hne : bw - 20 ≠ layer.width := by
        intro he
        rw [← he] at hgt
        linarith
      simp [drawLayerRect, hgt, hne]
    · simp [drawLayerRect, hgt]
  refine ⟨hmain, fun c b => rfl, ?_, ?_⟩
  · rw [hmain]
    norm_num [sampleLayerB]
  · rw [hmain]
    norm_num [sampleLayer]

end Roygbiv
